import Mathlib

/-!
Shallow embedding of the Unity IAP server's receipt-validation pipeline
(`validate` in `controllers/engineController.ts`, exposed as
`POST /engine/validate`), together with its two provider verifiers
`verifyAndroidReceipt` and `verifyiOSReceipt`.

Modelling conventions:
* The inner receipt object of the request body is an untyped JSON record at
  runtime (the TypeScript casts `as GooglePlayReceipt` / `as AppleReceipt`
  are no-ops), so `ReceiptData` carries the union of the fields of
  `GooglePlayReceiptData` and `AppleReceiptData`, each one optional; an
  absent field is `none` (JS `undefined`).
* Timestamps are integer epoch milliseconds; `Date` comparisons in the
  source become integer comparisons, and `Date.now()` is the `now` field of
  the environment.
* The three network collaborators (Google Play `purchases.products.get`,
  Apple `getTransactionInfo` plus the mechanical base64/JSON decoding of its
  signed payload, and the Engine `erc20/mint-to` endpoint) are oracles in an
  `Env` record; a thrown transport error is `Except.error` carrying the
  error message.
* A thrown JS error is `Except.error` with the `Error`'s message string;
  `validate` returns `Except String HttpResponse` (an uncaught throw is
  `Except.error`) paired with the list of external calls it performed,
  in order.
-/

/-- A reward entry of the in-memory catalog: ERC20 contract address and
token amount, mirroring the `Reward` type of the source. -/
structure Reward where
  contract : String
  amount : String
  deriving DecidableEq, Repr

/-- The inner receipt record (`parsedReq.receipt.receiptData`).  Union of
the fields of `GooglePlayReceiptData` and `AppleReceiptData` from the
source; every field is optional because the runtime value is a plain JSON
object and classification is structural. -/
structure ReceiptData where
  productID : Option String
  orderID : Option String
  transactionID : Option String
  packageName : Option String
  purchaseToken : Option String
  purchaseDate : Option String
  purchaseState : Option Int
  quantity : Option Int
  originalTransactionIdentifier : Option String
  originalPurchaseDate : Option String
  subscriptionExpirationDate : Option String
  cancellationDate : Option String
  isFreeTrial : Option Int
  productType : Option Int
  isIntroductoryPricePeriod : Option Int
  deriving DecidableEq, Repr

/-- A receipt record with all fields absent; concrete receipts are built
from it by record update. -/
def emptyReceiptData : ReceiptData :=
  ⟨none, none, none, none, none, none, none, none, none, none, none, none,
   none, none, none⟩

/-- The receipt envelope (`parsedReq.receipt`); its `receiptData` field may
be absent in a malformed body. -/
structure Receipt where
  receiptData : Option ReceiptData
  deriving DecidableEq, Repr

/-- The request body of `POST /engine/validate` (`ValidateRequest` in the
source); `receipt` may be absent in a malformed body. -/
structure ValidateRequest where
  receipt : Option Receipt
  toAddress : Option String
  deriving DecidableEq, Repr

/-- The storefront provider a receipt is classified to. -/
inductive Provider where
  | google
  | apple
  deriving DecidableEq, Repr

/-- Receipt classification, mirroring
`parsedReq.receipt.receiptData.hasOwnProperty("purchaseToken")`: the
receipt is Google exactly when the `purchaseToken` field is present,
otherwise Apple. -/
def classify (rd : ReceiptData) : Provider :=
  if rd.purchaseToken.isSome then Provider.google else Provider.apple

/-- The in-memory product-to-reward catalog `REWARD_MAPPING`, with its
single entry from the source. -/
def REWARD_MAPPING (productID : String) : Option Reward :=
  if productID = "100_tokens" then
    some { contract := "0x33D1a021aFbE0CFB0AC7CcB7c5A247777b3e7c50", amount := "100" }
  else
    none

/-- The fields of the Google Play `purchases.products.get` response that
the verifier reads (`response.data`). -/
structure ProductPurchase where
  purchaseState : Int
  purchaseTimeMillis : Int
  orderId : String
  deriving DecidableEq, Repr

/-- The fields of the decoded Apple signed-transaction payload that the
verifier reads. -/
structure JWSTransactionDecodedPayload where
  productId : String
  quantity : Int
  purchaseDate : Int
  deriving DecidableEq, Repr

/-- An external network call made by the pipeline, recorded with the
arguments it was given. -/
inductive ExtCall where
  | googleVerify (packageName productId token : Option String)
  | appleVerify (transactionId : Option String)
  | mintCall (contract : String) (toAddress : Option String) (amount : String)
  deriving DecidableEq, Repr

/-- Whether an external call is a call to the minting endpoint. -/
def ExtCall.isMint : ExtCall → Bool
  | .mintCall _ _ _ => true
  | _ => false

/-- The environment of external collaborators: the two provider
verification services, the Engine mint endpoint, and the clock.
`productsGet` is keyed by `(packageName, productId, token)`;
`getTransactionInfo` is keyed by the transaction id and returns the decoded
signed-transaction payload, or `none` when the service returns no signed
payload; `mintTo` is keyed by `(contract, toAddress, amount)` and returns
the response body.  `now` is `Date.now()` in epoch milliseconds. -/
structure Env where
  productsGet : Option String → Option String → Option String → Except String ProductPurchase
  getTransactionInfo : Option String → Except String (Option JWSTransactionDecodedPayload)
  mintTo : String → Option String → String → Except String String
  now : Int

/-- `verifyAndroidReceipt`: query the Google Play purchase, then check, in
order, purchase state, purchase-time freshness (5 minutes), and order id.
Returns the verification outcome together with the provider call made. -/
def verifyAndroidReceipt (env : Env) (rd : ReceiptData) :
    Except String Unit × List ExtCall :=
  (match env.productsGet rd.packageName rd.productID rd.purchaseToken with
    | Except.error e => Except.error e
    | Except.ok resp =>
      if resp.purchaseState ≠ 0 then Except.error "Invalid purchase state"
      else if resp.purchaseTimeMillis < env.now - 5 * 60 * 1000 then
        Except.error "Purchase time is too old"
      else if (some resp.orderId : Option String) ≠ rd.orderID then
        Except.error "Invalid order ID"
      else Except.ok (),
   [ExtCall.googleVerify rd.packageName rd.productID rd.purchaseToken])

/-- `verifyiOSReceipt`: fetch the transaction info for the claimed
transaction id, fail when no signed payload is returned, then check, in
order, product id, quantity, and purchase-date freshness (5 minutes).
Returns the verification outcome together with the provider call made. -/
def verifyiOSReceipt (env : Env) (rd : ReceiptData) :
    Except String Unit × List ExtCall :=
  (match env.getTransactionInfo rd.transactionID with
    | Except.error e => Except.error e
    | Except.ok none => Except.error "Transaction not found"
    | Except.ok (some payload) =>
      if (some payload.productId : Option String) ≠ rd.productID then
        Except.error "Invalid product ID"
      else if (some payload.quantity : Option Int) ≠ rd.quantity then
        Except.error "Invalid quantity"
      else if payload.purchaseDate < env.now - 5 * 60 * 1000 then
        Except.error "Purchase time is too old"
      else Except.ok (),
   [ExtCall.appleVerify rd.transactionID])

/-- Dispatch to the verifier selected by classification: the body of the
`if (googlePlayReceipt) await verifyAndroidReceipt else await
verifyiOSReceipt` step of `validate`. -/
def runVerifier (env : Env) (rd : ReceiptData) :
    Except String Unit × List ExtCall :=
  match classify rd with
  | Provider.google => verifyAndroidReceipt env rd
  | Provider.apple => verifyiOSReceipt env rd

/-- The body of an HTTP response produced by the pipeline: either a
`{message: ...}` JSON object or the verbatim body relayed from the mint
endpoint. -/
inductive RespBody where
  | message (msg : String)
  | raw (data : String)
  deriving DecidableEq, Repr

/-- An HTTP response: status code and body. -/
structure HttpResponse where
  status : Nat
  body : RespBody
  deriving DecidableEq, Repr

/-- The `validate` request handler.  Mirrors the source control flow:
access `receipt.receiptData` (an absent envelope makes the property access
throw an uncaught TypeError), classify by presence of `purchaseToken`,
look the product up in `REWARD_MAPPING` (both branches of the source's
ternary read `receiptData.productID`) answering 400 on a miss before any
network call, run the matching verifier answering 401 with the failure
message on a throw, then call the mint endpoint, relaying its body with
status 200 on success and answering 400 on a throw.  The second component
is the list of external calls performed. -/
def validate (env : Env) (req : ValidateRequest) :
    Except String HttpResponse × List ExtCall :=
  match req.receipt with
  | none => (Except.error "TypeError: cannot read properties of undefined", [])
  | some receipt =>
    match receipt.receiptData with
    | none => (Except.error "TypeError: cannot read properties of undefined", [])
    | some rd =>
      match rd.productID.bind REWARD_MAPPING with
      | none =>
        (Except.ok
           { status := 400,
             body := RespBody.message "Invalid product ID, could not find reward." },
         [])
      | some reward =>
        match (runVerifier env rd).1 with
        | Except.error msg =>
          (Except.ok
             { status := 401,
               body := RespBody.message ("Unable to validate receipt: " ++ msg) },
           (runVerifier env rd).2)
        | Except.ok _ =>
          match env.mintTo reward.contract req.toAddress reward.amount with
          | Except.error _ =>
            (Except.ok
               { status := 400,
                 body := RespBody.message "Unable to sign payload." },
             (runVerifier env rd).2 ++
               [ExtCall.mintCall reward.contract req.toAddress reward.amount])
          | Except.ok data =>
            (Except.ok { status := 200, body := RespBody.raw data },
             (runVerifier env rd).2 ++
               [ExtCall.mintCall reward.contract req.toAddress reward.amount])

/-- The trace of either verifier is its single provider call, so it
contains no mint call. -/
theorem runVerifier_trace_mint_free (env : Env) (rd : ReceiptData) :
    (runVerifier env rd).2.filter ExtCall.isMint = [] := by
  unfold runVerifier
  cases classify rd <;> rfl

/-- Claim C3: classification is decided solely by the presence of the
`purchaseToken` field on the inner receipt data: the receipt is classified
as Google exactly when the field is present, and as Apple exactly when it
is absent (so any malformed receipt lacking the field is Apple). -/
theorem classification_by_purchaseToken (rd : ReceiptData) :
    (classify rd = Provider.google ↔ (rd.purchaseToken).isSome = true) ∧
    (classify rd = Provider.apple ↔ rd.purchaseToken = none) := by
  unfold classify
  cases h : rd.purchaseToken <;> simp [h]

/-! Concrete fixtures used by the witness theorems. -/

/-- A well-formed Google Play receipt for the catalogued product. -/
def rdGoogle : ReceiptData :=
  { emptyReceiptData with
    productID := some "100_tokens",
    orderID := some "ord1",
    transactionID := some "t1",
    packageName := some "com.x",
    purchaseToken := some "tok1",
    purchaseDate := some "2026-10-12T00:00:00Z",
    purchaseState := some 0 }

/-- A well-formed Apple receipt for the catalogued product. -/
def rdApple : ReceiptData :=
  { emptyReceiptData with
    productID := some "100_tokens",
    transactionID := some "t1",
    quantity := some 1,
    purchaseDate := some "2026-10-12T00:00:00Z" }

/-- A Google Play receipt whose product is not in the catalog. -/
def rdUnknownProduct : ReceiptData :=
  { rdGoogle with productID := some "9000_gems" }

/-- Wrap an inner receipt record into a full request body. -/
def reqOf (rd : ReceiptData) : ValidateRequest :=
  ⟨some ⟨some rd⟩, some "0xABC"⟩

/-- The catalog entry for product `100_tokens`. -/
def rewardTokens : Reward :=
  ⟨"0x33D1a021aFbE0CFB0AC7CcB7c5A247777b3e7c50", "100"⟩

/-- A baseline environment at clock 1000000 ms where both providers confirm
a fresh matching purchase (1 second old) and the mint endpoint succeeds. -/
def envBase : Env :=
  ⟨fun _ _ _ => Except.ok ⟨0, 999000, "ord1"⟩,
   fun _ => Except.ok (some ⟨"100_tokens", 1, 999000⟩),
   fun _ _ _ => Except.ok "minted",
   1000000⟩

/-- Like `envBase` but Google reports purchase state 1. -/
def envState1 : Env :=
  { envBase with productsGet := fun _ _ _ => Except.ok ⟨1, 999000, "ord1"⟩ }

/-- Like `envBase` but both providers report a purchase 5 minutes and 1
second old (timestamp 699000 at clock 1000000). -/
def envStale : Env :=
  { envBase with
    productsGet := fun _ _ _ => Except.ok ⟨0, 699000, "ord1"⟩,
    getTransactionInfo := fun _ => Except.ok (some ⟨"100_tokens", 1, 699000⟩) }

/-- Like `envBase` but both providers report a purchase 4 minutes and 59
seconds old (timestamp 701000 at clock 1000000). -/
def envFresh299 : Env :=
  { envBase with
    productsGet := fun _ _ _ => Except.ok ⟨0, 701000, "ord1"⟩,
    getTransactionInfo := fun _ => Except.ok (some ⟨"100_tokens", 1, 701000⟩) }

/-- Like `envBase` but Apple returns no signed transaction payload. -/
def envNoTx : Env :=
  { envBase with getTransactionInfo := fun _ => Except.ok none }

/-- Like `envBase` but the mint endpoint call fails. -/
def envMintFail : Env :=
  { envBase with mintTo := fun _ _ _ => Except.error "connect ECONNREFUSED" }

/-- Claim C1: whenever the receipt reaches verification (a catalogued
product) and the selected verifier throws with message `msg`, `validate`
answers 401 with body message `"Unable to validate receipt: " ++ msg`, and
the mint endpoint is never called. -/
theorem verifier_failure_maps_to_401 (env : Env) (req : ValidateRequest)
    (receipt : Receipt) (rd : ReceiptData) (reward : Reward) (msg : String)
    (hreq : req.receipt = some receipt)
    (hrd : receipt.receiptData = some rd)
    (hreward : rd.productID.bind REWARD_MAPPING = some reward)
    (hfail : (runVerifier env rd).1 = Except.error msg) :
    (validate env req).1 =
      Except.ok
        { status := 401,
          body := RespBody.message ("Unable to validate receipt: " ++ msg) } ∧
    (validate env req).2.filter ExtCall.isMint = [] := by
  have hv := runVerifier_trace_mint_free env rd
  simp only [validate, hreq, hrd, hreward, hfail, hv]
  exact ⟨trivial, trivial⟩

/-- Witness for C1: with Google reporting purchase state 1 on a catalogued
product, the pipeline answers 401 mentioning the invalid purchase state and
makes no mint call. -/
theorem verifier_failure_maps_to_401_witness :
    (validate envState1 (reqOf rdGoogle)).1 =
      Except.ok
        { status := 401,
          body := RespBody.message
            ("Unable to validate receipt: " ++ "Invalid purchase state") } ∧
    (validate envState1 (reqOf rdGoogle)).2.filter ExtCall.isMint = [] :=
  verifier_failure_maps_to_401 envState1 (reqOf rdGoogle) ⟨some rdGoogle⟩
    rdGoogle rewardTokens "Invalid purchase state" rfl rfl rfl rfl

/-- Claim C2: a receipt whose product is not in the catalog is answered
400 with the fixed message, and no external call at all (neither provider
verification nor mint) is made. -/
theorem unknown_product_short_circuits (env : Env) (req : ValidateRequest)
    (receipt : Receipt) (rd : ReceiptData)
    (hreq : req.receipt = some receipt)
    (hrd : receipt.receiptData = some rd)
    (hmiss : rd.productID.bind REWARD_MAPPING = none) :
    validate env req =
      (Except.ok
        { status := 400,
          body := RespBody.message "Invalid product ID, could not find reward." },
       []) := by
  simp only [validate, hreq, hrd, hmiss]

/-- Witness for C2: the unknown product `9000_gems` is answered 400 with an
empty external-call trace. -/
theorem unknown_product_short_circuits_witness :
    validate envBase (reqOf rdUnknownProduct) =
      (Except.ok
        { status := 400,
          body := RespBody.message "Invalid product ID, could not find reward." },
       []) :=
  unknown_product_short_circuits envBase (reqOf rdUnknownProduct)
    ⟨some rdUnknownProduct⟩ rdUnknownProduct rfl rfl rfl

/-- Claim C4: Google verification checks in order, failing with a distinct
message at the first violated check: purchase state ≠ 0 rejects regardless
of any order-id match; with state 0 a stale timestamp rejects; with state 0
and a fresh timestamp a mismatching order id rejects. -/
theorem google_checks_in_order (env : Env) (rd : ReceiptData)
    (resp : ProductPurchase)
    (hapi : env.productsGet rd.packageName rd.productID rd.purchaseToken =
      Except.ok resp) :
    (resp.purchaseState ≠ 0 →
      (verifyAndroidReceipt env rd).1 = Except.error "Invalid purchase state") ∧
    (resp.purchaseState = 0 →
      resp.purchaseTimeMillis < env.now - 5 * 60 * 1000 →
      (verifyAndroidReceipt env rd).1 = Except.error "Purchase time is too old") ∧
    (resp.purchaseState = 0 →
      ¬resp.purchaseTimeMillis < env.now - 5 * 60 * 1000 →
      (some resp.orderId : Option String) ≠ rd.orderID →
      (verifyAndroidReceipt env rd).1 = Except.error "Invalid order ID") := by
  refine ⟨fun h1 => ?_, fun h1 h2 => ?_, fun h1 h2 h3 => ?_⟩
  · simp [verifyAndroidReceipt, hapi, h1]
  · simp only [verifyAndroidReceipt, hapi]
    rw [if_neg (by simp [h1]), if_pos h2]
  · simp only [verifyAndroidReceipt, hapi]
    rw [if_neg (by simp [h1]), if_neg h2, if_pos h3]

/-- Witness for C4: Google purchase state 1 is rejected as an invalid
purchase state even though the returned order id matches the claim. -/
theorem google_checks_in_order_witness :
    (verifyAndroidReceipt envState1 rdGoogle).1 =
      Except.error "Invalid purchase state" :=
  (google_checks_in_order envState1 rdGoogle ⟨1, 999000, "ord1"⟩ rfl).1
    (by decide)

/-- Claim C5: Apple verification fails with the transaction-not-found
message when the provider returns no signed payload; with a payload it
checks, in order, product id (a mismatch rejects independent of all other
fields), then quantity, then purchase-date freshness, each with a distinct
message. -/
theorem apple_checks_in_order (env : Env) (rd : ReceiptData)
    (payload : JWSTransactionDecodedPayload) :
    (env.getTransactionInfo rd.transactionID = Except.ok none →
      (verifyiOSReceipt env rd).1 = Except.error "Transaction not found") ∧
    (env.getTransactionInfo rd.transactionID = Except.ok (some payload) →
      (((some payload.productId : Option String) ≠ rd.productID →
          (verifyiOSReceipt env rd).1 = Except.error "Invalid product ID") ∧
       ((some payload.productId : Option String) = rd.productID →
          (some payload.quantity : Option Int) ≠ rd.quantity →
          (verifyiOSReceipt env rd).1 = Except.error "Invalid quantity") ∧
       ((some payload.productId : Option String) = rd.productID →
          (some payload.quantity : Option Int) = rd.quantity →
          payload.purchaseDate < env.now - 5 * 60 * 1000 →
          (verifyiOSReceipt env rd).1 = Except.error "Purchase time is too old"))) := by
  refine ⟨fun h0 => ?_,
    fun h0 => ⟨fun h1 => ?_, fun h1 h2 => ?_, fun h1 h2 h3 => ?_⟩⟩
  · simp [verifyiOSReceipt, h0]
  · simp [verifyiOSReceipt, h0, h1]
  · simp [verifyiOSReceipt, h0, h1, h2]
  · simp only [verifyiOSReceipt, h0]
    rw [if_neg (by simp [h1]), if_neg (by simp [h2]), if_pos h3]

/-- Witness for C5: when the provider returns no signed transaction
payload, Apple verification fails with the transaction-not-found message. -/
theorem apple_checks_in_order_witness :
    (verifyiOSReceipt envNoTx rdApple).1 = Except.error "Transaction not found" :=
  (apple_checks_in_order envNoTx rdApple ⟨"100_tokens", 1, 999000⟩).1 rfl

/-- Claim C6: for both verifiers, once the earlier checks pass, the
freshness check rejects with the too-old message exactly when the
provider-reported purchase timestamp is more than 5 minutes (300000 ms)
before the verification instant; equivalently it passes exactly when the
timestamp is within the last 5 minutes. -/
theorem freshness_window_five_minutes (env : Env) (rdG rdA : ReceiptData)
    (resp : ProductPurchase) (payload : JWSTransactionDecodedPayload)
    (hg : env.productsGet rdG.packageName rdG.productID rdG.purchaseToken =
      Except.ok resp)
    (hstate : resp.purchaseState = 0)
    (ha : env.getTransactionInfo rdA.transactionID = Except.ok (some payload))
    (hprod : (some payload.productId : Option String) = rdA.productID)
    (hquant : (some payload.quantity : Option Int) = rdA.quantity) :
    ((verifyAndroidReceipt env rdG).1 = Except.error "Purchase time is too old" ↔
      5 * 60 * 1000 < env.now - resp.purchaseTimeMillis) ∧
    ((verifyiOSReceipt env rdA).1 = Except.error "Purchase time is too old" ↔
      5 * 60 * 1000 < env.now - payload.purchaseDate) := by
  constructor
  · by_cases h : resp.purchaseTimeMillis < env.now - 5 * 60 * 1000
    · simp [verifyAndroidReceipt, hg, hstate, h]
      omega
    · by_cases ho : (some resp.orderId : Option String) ≠ rdG.orderID
      · simp [verifyAndroidReceipt, hg, hstate, h, ho]
        omega
      · simp [verifyAndroidReceipt, hg, hstate, h, ho]
        omega
  · by_cases h : payload.purchaseDate < env.now - 5 * 60 * 1000
    · simp [verifyiOSReceipt, ha, hprod, hquant, h]
      omega
    · simp [verifyiOSReceipt, ha, hprod, hquant, h]
      omega

/-- Witness for C6: a purchase 5 minutes and 1 second old (Google side) is
rejected as too old, while a purchase 4 minutes and 59 seconds old (Apple
side) is not. -/
theorem freshness_window_five_minutes_witness :
    (verifyAndroidReceipt envStale rdGoogle).1 =
      Except.error "Purchase time is too old" ∧
    ¬(verifyiOSReceipt envFresh299 rdApple).1 =
      Except.error "Purchase time is too old" := by
  constructor
  · exact ((freshness_window_five_minutes envStale rdGoogle rdApple
      ⟨0, 699000, "ord1"⟩ ⟨"100_tokens", 1, 699000⟩ rfl rfl rfl rfl rfl).1).mpr
      (by decide)
  · intro hcontra
    exact absurd ((freshness_window_five_minutes envFresh299 rdGoogle rdApple
      ⟨0, 701000, "ord1"⟩ ⟨"100_tokens", 1, 701000⟩ rfl rfl rfl rfl rfl).2.mp
      hcontra) (by decide)

/-- Claim C7: when the selected verifier succeeds on a catalogued product,
`validate` calls the mint endpoint exactly once, with the request's
`toAddress` and the resolved reward (catalog amount, scoped to the reward's
contract); when that call succeeds, the answer is 200 with the endpoint's
response body relayed verbatim. -/
theorem mint_dispatched_once_on_success (env : Env) (req : ValidateRequest)
    (receipt : Receipt) (rd : ReceiptData) (reward : Reward)
    (hreq : req.receipt = some receipt)
    (hrd : receipt.receiptData = some rd)
    (hreward : rd.productID.bind REWARD_MAPPING = some reward)
    (hok : (runVerifier env rd).1 = Except.ok ()) :
    (validate env req).2.filter ExtCall.isMint =
      [ExtCall.mintCall reward.contract req.toAddress reward.amount] ∧
    (∀ data, env.mintTo reward.contract req.toAddress reward.amount = Except.ok data →
      (validate env req).1 = Except.ok { status := 200, body := RespBody.raw data }) := by
  have hv := runVerifier_trace_mint_free env rd
  constructor
  · simp only [validate, hreq, hrd, hreward, hok]
    cases hm : env.mintTo reward.contract req.toAddress reward.amount <;>
      simp [List.filter_append, hv, ExtCall.isMint]
  · intro data hm
    simp only [validate, hreq, hrd, hreward, hok, hm]

/-- Witness for C7: in the happy-path environment the Google request yields
exactly one mint call carrying the catalog reward, and the pipeline answers
200 with the mint endpoint's body. -/
theorem mint_dispatched_once_on_success_witness :
    (validate envBase (reqOf rdGoogle)).2.filter ExtCall.isMint =
      [ExtCall.mintCall rewardTokens.contract (some "0xABC") rewardTokens.amount] ∧
    (validate envBase (reqOf rdGoogle)).1 =
      Except.ok { status := 200, body := RespBody.raw "minted" } :=
  ⟨(mint_dispatched_once_on_success envBase (reqOf rdGoogle) ⟨some rdGoogle⟩
      rdGoogle rewardTokens rfl rfl rfl rfl).1,
   (mint_dispatched_once_on_success envBase (reqOf rdGoogle) ⟨some rdGoogle⟩
      rdGoogle rewardTokens rfl rfl rfl rfl).2 "minted" rfl⟩

/-- Claim C8: when verification succeeds but the mint endpoint call fails,
`validate` answers 400 with the fixed message (a status and message
distinct from the 401 receipt-invalidity shape), and the mint endpoint was
called exactly once (no retry). -/
theorem mint_failure_maps_to_400 (env : Env) (req : ValidateRequest)
    (receipt : Receipt) (rd : ReceiptData) (reward : Reward) (e : String)
    (hreq : req.receipt = some receipt)
    (hrd : receipt.receiptData = some rd)
    (hreward : rd.productID.bind REWARD_MAPPING = some reward)
    (hok : (runVerifier env rd).1 = Except.ok ())
    (hmint : env.mintTo reward.contract req.toAddress reward.amount =
      Except.error e) :
    (validate env req).1 =
      Except.ok { status := 400, body := RespBody.message "Unable to sign payload." } ∧
    (validate env req).2.filter ExtCall.isMint =
      [ExtCall.mintCall reward.contract req.toAddress reward.amount] := by
  have hv := runVerifier_trace_mint_free env rd
  simp only [validate, hreq, hrd, hreward, hok, hmint]
  exact ⟨trivial, by simp [List.filter_append, hv, ExtCall.isMint]⟩

/-- Witness for C8: with a failing mint endpoint the Google request is
answered 400 with the fixed message after a single mint call. -/
theorem mint_failure_maps_to_400_witness :
    (validate envMintFail (reqOf rdGoogle)).1 =
      Except.ok { status := 400, body := RespBody.message "Unable to sign payload." } ∧
    (validate envMintFail (reqOf rdGoogle)).2.filter ExtCall.isMint =
      [ExtCall.mintCall rewardTokens.contract (some "0xABC") rewardTokens.amount] :=
  mint_failure_maps_to_400 envMintFail (reqOf rdGoogle) ⟨some rdGoogle⟩
    rdGoogle rewardTokens "connect ECONNREFUSED" rfl rfl rfl rfl rfl

/-- Counterexample for C9: a body whose `receipt` field is absent makes the
property access `parsedReq.receipt.receiptData` throw, and the throw leaves
the pipeline unhandled instead of being mapped to a 200/400/401 response. -/
theorem missing_receipt_escapes_unhandled :
    (validate envBase { receipt := none, toAddress := some "0xABC" }).1 =
      Except.error "TypeError: cannot read properties of undefined" := rfl

/-- Claim C9 (amended): for every request whose body does carry a receipt
with inner receipt data, every failure is handled inside the pipeline and
mapped to one of the three response shapes 200, 400 or 401. -/
theorem pipeline_handles_all_failures_with_envelope (env : Env)
    (req : ValidateRequest) (receipt : Receipt) (rd : ReceiptData)
    (hreq : req.receipt = some receipt)
    (hrd : receipt.receiptData = some rd) :
    ∃ resp, (validate env req).1 = Except.ok resp ∧
      (resp.status = 200 ∨ resp.status = 400 ∨ resp.status = 401) := by
  cases hcat : rd.productID.bind REWARD_MAPPING with
  | none =>
    refine ⟨⟨400, RespBody.message "Invalid product ID, could not find reward."⟩,
      ?_, Or.inr (Or.inl rfl)⟩
    simp only [validate, hreq, hrd, hcat]
  | some reward =>
    cases hver : (runVerifier env rd).1 with
    | error msg =>
      refine ⟨⟨401, RespBody.message ("Unable to validate receipt: " ++ msg)⟩,
        ?_, Or.inr (Or.inr rfl)⟩
      simp only [validate, hreq, hrd, hcat, hver]
    | ok u =>
      cases u
      cases hm : env.mintTo reward.contract req.toAddress reward.amount with
      | error e =>
        refine ⟨⟨400, RespBody.message "Unable to sign payload."⟩,
          ?_, Or.inr (Or.inl rfl)⟩
        simp only [validate, hreq, hrd, hcat, hver, hm]
      | ok data =>
        refine ⟨⟨200, RespBody.raw data⟩, ?_, Or.inl rfl⟩
        simp only [validate, hreq, hrd, hcat, hver, hm]

/-- Witness for the amended C9: a concrete well-formed request is answered
with one of the three response shapes. -/
theorem pipeline_handles_all_failures_witness :
    ∃ resp, (validate envBase (reqOf rdGoogle)).1 = Except.ok resp ∧
      (resp.status = 200 ∨ resp.status = 400 ∨ resp.status = 401) :=
  pipeline_handles_all_failures_with_envelope envBase (reqOf rdGoogle)
    ⟨some rdGoogle⟩ rdGoogle rfl rfl

/-- An Apple receipt agreeing with `rdApple` on transaction id, product id
and quantity but differing in cancellation date, subscription expiration
date, free-trial flag, claimed purchase date and original transaction
identifier. -/
def rdAppleCancelled : ReceiptData :=
  { rdApple with
    cancellationDate := some "2026-10-11T00:00:00Z",
    subscriptionExpirationDate := some "2026-11-11T00:00:00Z",
    isFreeTrial := some 1,
    purchaseDate := some "2020-01-01T00:00:00Z",
    originalTransactionIdentifier := some "orig-1" }

/-- Claim C10: the Apple verifier's outcome depends only on the claimed
`transactionID`, `productID` and `quantity` (besides the provider oracle
and the clock): two receipts agreeing on those three fields verify
identically, whatever their other fields. -/
theorem apple_verifier_depends_only_on_claimed_triple (env : Env)
    (rd1 rd2 : ReceiptData)
    (ht : rd1.transactionID = rd2.transactionID)
    (hp : rd1.productID = rd2.productID)
    (hq : rd1.quantity = rd2.quantity) :
    verifyiOSReceipt env rd1 = verifyiOSReceipt env rd2 := by
  simp only [verifyiOSReceipt, ht, hp, hq]

/-- Witness for C10: a receipt carrying a cancellation date (and several
other differing fields) verifies exactly like its plain counterpart, and in
the happy-path environment it still verifies successfully. -/
theorem apple_verifier_depends_only_on_claimed_triple_witness :
    verifyiOSReceipt envBase rdAppleCancelled = verifyiOSReceipt envBase rdApple ∧
    (verifyiOSReceipt envBase rdAppleCancelled).1 = Except.ok () := by
  have h := apple_verifier_depends_only_on_claimed_triple envBase
    rdAppleCancelled rdApple rfl rfl rfl
  have h2 : (verifyiOSReceipt envBase rdApple).1 = Except.ok () := rfl
  exact ⟨h, by rw [h]; exact h2⟩
